import Mathlib

/-!
Verification development for the google-tasks-mvp web application
(transcript-to-task extraction service).

The JavaScript sources are shallowly embedded as executable Lean
definitions.  Strings are handled as `List Char` internally; JavaScript
values that can take several JSON shapes are embedded as the inductive
`JVal`.  The JavaScript regular expressions used by the extractor and the
validators are embedded as abstract syntax trees over a small executable
backtracking engine (`RE`, `reMatch`) whose priority order mirrors the
JavaScript engine: alternation prefers the left branch and quantifiers
are greedy.  All embedded patterns carry the `i` flag in the source, so
literal characters match case-insensitively.  External collaborators
(JSON.parse, the generative-text service, the Google Tasks API, date
parsing) are modeled as explicit parameters or already-parsed inputs at
the exact call boundary of the source code.
-/

namespace GTasks

/-- JavaScript `\s` class restricted to the character set appearing in the
inputs of this development (space, tab, newline, carriage return, vertical
tab, form feed).  The full JavaScript class additionally holds rare
Unicode spaces that no embedded input uses. -/
def jsWs (c : Char) : Bool :=
  c == ' ' || c == '\t' || c == '\n' || c == '\r' || c == (Char.ofNat 11) || c == (Char.ofNat 12)

/-- JavaScript `\w` class: ASCII letters, digits and underscore. -/
def jsWordChar (c : Char) : Bool :=
  (('a' ≤ c.toLower) && (c.toLower ≤ 'z')) || (('0' ≤ c) && (c ≤ '9')) || c == '_'

/-- Sentence-ending punctuation, the class `[.!?]` of the source patterns. -/
def sentEnd (c : Char) : Bool :=
  c == '.' || c == '!' || c == '?'

/-- JavaScript `String.prototype.trim` on a character list (ASCII inputs). -/
def jsTrimL (l : List Char) : List Char :=
  ((l.dropWhile jsWs).reverse.dropWhile jsWs).reverse

/-- Drop a trailing run of characters satisfying `p`; used for the anchored
replacement `replace(/[.!?]+$/, "")` of the source. -/
def dropTrailing (p : Char → Bool) (l : List Char) : List Char :=
  (l.reverse.dropWhile p).reverse

/-- Substring test: does `needle` occur contiguously inside `hay`?  This is
the JavaScript `String.prototype.includes` (also used on byte sequences). -/
def seqContains [BEq α] (hay needle : List α) : Bool :=
  hay.tails.any (fun t => needle.isPrefixOf t)

/-- Case fold a character list, the JavaScript `toLowerCase` on ASCII. -/
def lowerL (l : List Char) : List Char :=
  l.map Char.toLower

/-- Abstract syntax of the JavaScript regular expressions embedded in this
development.  `grp` is the unique capturing group of a pattern, `wordB` is
the zero-width `\b` assertion and `nla` is a zero-width negative lookahead
`(?!...)`. -/
inductive RE where
  | eps : RE
  | ch : Char → RE
  | cls : (Char → Bool) → RE
  | seq : RE → RE → RE
  | alt : RE → RE → RE
  | star : RE → RE
  | opt : RE → RE
  | wordB : RE
  | nla : RE → RE
  | grp : RE → RE

/-- Sequence a list of pattern pieces. -/
def reSeq (rs : List RE) : RE :=
  rs.foldr RE.seq RE.eps

/-- Literal word (each character matched case-insensitively, as all embedded
patterns carry the i flag). -/
def reStr (s : String) : RE :=
  reSeq (s.toList.map RE.ch)

/-- One-or-more repetition, the `+` quantifier. -/
def rePlus (r : RE) : RE :=
  RE.seq r (RE.star r)

/-- Word boundary test used by `\b`: positions where exactly one side is a
word character (an absent side counts as non-word). -/
def atWordBoundary (prev : Option Char) (s : List Char) : Bool :=
  let pw := match prev with | some c => jsWordChar c | none => false
  let nw := match s with | c :: _ => jsWordChar c | [] => false
  pw != nw

/-- Backtracking matcher.  Given fuel, a pattern, the previous character (for
boundary assertions) and the input suffix, it returns every way the pattern
can match a prefix of the suffix, in JavaScript priority order (left
alternative first, greedy quantifiers first): each result carries the new
previous character, the remaining suffix and the capture of group 1 if the
group participated.  Fuel only bounds recursion depth; callers pass fuel
large enough that it is never exhausted on their inputs. -/
def reMatch : Nat → RE → Option Char → List Char → Option (List Char) →
    List (Option Char × List Char × Option (List Char))
  | 0, _, _, _, _ => []
  | _ + 1, RE.eps, p, s, cap => [(p, s, cap)]
  | _ + 1, RE.ch c, _, s, cap =>
    match s with
    | [] => []
    | x :: xs => if x.toLower == c.toLower then [(some x, xs, cap)] else []
  | _ + 1, RE.cls f, _, s, cap =>
    match s with
    | [] => []
    | x :: xs => if f x then [(some x, xs, cap)] else []
  | fuel + 1, RE.seq a b, p, s, cap =>
    (reMatch fuel a p s cap).flatMap (fun r => reMatch fuel b r.1 r.2.1 r.2.2)
  | fuel + 1, RE.alt a b, p, s, cap =>
    reMatch fuel a p s cap ++ reMatch fuel b p s cap
  | fuel + 1, RE.star a, p, s, cap =>
    ((reMatch fuel a p s cap).filter (fun r => r.2.1.length < s.length)).flatMap
      (fun r => reMatch fuel (RE.star a) r.1 r.2.1 r.2.2) ++ [(p, s, cap)]
  | fuel + 1, RE.opt a, p, s, cap =>
    reMatch fuel a p s cap ++ [(p, s, cap)]
  | _ + 1, RE.wordB, p, s, cap =>
    if atWordBoundary p s then [(p, s, cap)] else []
  | fuel + 1, RE.nla a, p, s, cap =>
    if (reMatch fuel a p s cap).isEmpty then [(p, s, cap)] else []
  | fuel + 1, RE.grp a, p, s, _ =>
    (reMatch fuel a p s none).map
      (fun r => (r.1, r.2.1, some (s.take (s.length - r.2.1.length))))

/-- Fuel that is always sufficient for the embedded patterns (every
quantified subpattern of the sources consumes at least one character per
iteration, so recursion depth is linear in the input). -/
def reFuel (s : List Char) : Nat :=
  64 * (s.length + 64)

/-- Leftmost match attempt at the current position: the first result in
priority order, as the JavaScript engine selects it. -/
def reMatchHead (r : RE) (prev : Option Char) (s : List Char) :
    Option (Option Char × List Char × Option (List Char)) :=
  (reMatch (reFuel s) r prev s none).head?

/-- The JavaScript `RegExp.prototype.test`: does the pattern match starting
at some position of the input? -/
def reTestFrom (r : RE) : Option Char → List Char → Bool
  | prev, s =>
    match reMatchHead r prev s with
    | some _ => true
    | none =>
      match s with
      | [] => false
      | c :: cs => reTestFrom r (some c) cs
termination_by _ s => s.length
decreasing_by
  simp_wf

/-- Pattern test on a whole input, starting with no previous character. -/
def reTest (r : RE) (s : List Char) : Bool :=
  reTestFrom r none s

/-- One step of global matching: `(full match, capture)` pairs in order, as
`String.prototype.match` with the g flag collects them; after a match the
scan resumes after the matched text (advancing one character on an empty
match, as JavaScript does). -/
def matchAllFrom (r : RE) : Nat → Option Char → List Char →
    List (List Char × Option (List Char))
  | 0, _, _ => []
  | fuel + 1, prev, s =>
    match reMatchHead r prev s with
    | some (p2, rest, cap) =>
      let len := s.length - rest.length
      if len == 0 then
        match s with
        | [] => [(([] : List Char), cap)]
        | c :: cs => (([] : List Char), cap) :: matchAllFrom r fuel (some c) cs
      else
        (s.take len, cap) :: matchAllFrom r fuel p2 rest
    | none =>
      match s with
      | [] => []
      | c :: cs => matchAllFrom r fuel (some c) cs

/-- All matches of a pattern in an input, the JavaScript
`input.match(pattern)` with the g flag (an empty result list plays the role
of the null return). -/
def matchAll (r : RE) (s : List Char) : List (List Char × Option (List Char)) :=
  matchAllFrom r (s.length + 1) none s

/-- Global replacement of every match by its group-1 capture, the
JavaScript `str.replace(pattern, "$1")` with the g flag (an absent capture
substitutes the empty string). -/
def replaceAllByGroup (r : RE) : Nat → Option Char → List Char → List Char
  | 0, _, s => s
  | fuel + 1, prev, s =>
    match reMatchHead r prev s with
    | some (p2, rest, cap) =>
      let len := s.length - rest.length
      if len == 0 then
        match s with
        | [] => cap.getD []
        | c :: cs => (cap.getD []) ++ c :: replaceAllByGroup r fuel (some c) cs
      else
        (cap.getD []) ++ replaceAllByGroup r fuel p2 rest
    | none =>
      match s with
      | [] => []
      | c :: cs => c :: replaceAllByGroup r fuel (some c) cs

/-- Entry point for `replace(pattern, "$1")`. -/
def replaceG1 (r : RE) (s : List Char) : List Char :=
  replaceAllByGroup r (s.length + 1) none s

/-- Replacement of an anchored leading match by the empty string, the
JavaScript `str.replace(/^pattern/, "")` (no g flag: first match only, and
the anchor restricts it to position zero). -/
def stripLeadingMatch (r : RE) (s : List Char) : List Char :=
  match reMatchHead r none s with
  | some (_, rest, _) => rest
  | none => s

/-! ## JSON values

JavaScript values produced by `JSON.parse` are embedded as `JVal`; string
contents are character lists.  `JSON.parse` itself is an external builtin:
functions that consume its result take the already-parsed value (wrapped in
`Option`, `none` standing for a thrown parse error). -/

inductive JVal where
  | jnull : JVal
  | jbool : Bool → JVal
  | jnum : Int → JVal
  | jstr : List Char → JVal
  | jarr : List JVal → JVal
  | jobj : List (String × JVal) → JVal

/-- JavaScript truthiness of a parsed JSON value (null, false, 0 and the
empty string are falsy; arrays and objects are truthy). -/
def truthy : JVal → Bool
  | JVal.jnull => false
  | JVal.jbool b => b
  | JVal.jnum n => n != 0
  | JVal.jstr s => !s.isEmpty
  | JVal.jarr _ => true
  | JVal.jobj _ => true

/-- Property access on a parsed object; `none` is the JavaScript undefined.
The embedded inputs use each key at most once. -/
def getField (fields : List (String × JVal)) (k : String) : Option JVal :=
  fields.lookup k

/-- The JavaScript expression `v || d` for a possibly absent property
(absent and falsy values both select the default). -/
def jsOr (v : Option JVal) (d : JVal) : JVal :=
  match v with
  | some x => if truthy x then x else d
  | none => d

/-! ## Extractor patterns

The regular expressions of `GeminiHelper.extractActionItemsFallback`
(src/utils/geminiHelper.js lines 174-182) and of the fallback in app.js
(lines 714-720).  All carry the flags gi. -/

/-- The apostrophe character, written by code point to keep source lexing
simple. -/
def apoCh : Char := Char.ofNat 39

/-- The class `[^.!?]`. -/
def notSentEnd (c : Char) : Bool := !sentEnd c

/-- The subpattern `\s+`. -/
def wsPlus : RE := rePlus (RE.cls jsWs)

/-- The subpattern `\s*`. -/
def wsStar : RE := RE.star (RE.cls jsWs)

/-- The capturing tail `([^.!?]+[.!?])` shared by every fallback pattern. -/
def captureTail : RE :=
  RE.grp (RE.seq (rePlus (RE.cls notSentEnd)) (RE.cls sentEnd))

/-- Pattern 1: `\bI\s+(?:will|'ll)\s+([^.!?]+[.!?])`. -/
def patIWill : RE :=
  reSeq [RE.wordB, RE.ch 'I', wsPlus,
    RE.alt (reStr ("will")) (RE.seq (RE.ch apoCh) (reStr ("ll"))),
    wsPlus, captureTail]

/-- Pattern 2: `\bI\s+(?:need\s+to|have\s+to)\s+([^.!?]+[.!?])`. -/
def patINeedTo : RE :=
  reSeq [RE.wordB, RE.ch 'I', wsPlus,
    RE.alt (reSeq [reStr ("need"), wsPlus, reStr ("to")])
           (reSeq [reStr ("have"), wsPlus, reStr ("to")]),
    wsPlus, captureTail]

/-- Pattern 3: `(?:action\s+item|todo):\s*([^.!?]+[.!?])`. -/
def patActionItem : RE :=
  reSeq [RE.alt (reSeq [reStr ("action"), wsPlus, reStr ("item")]) (reStr ("todo")),
    RE.ch ':', wsStar, captureTail]

/-- Pattern 4: `next\s+steps?:\s*([^.!?]+[.!?])`. -/
def patNextSteps : RE :=
  reSeq [reStr ("next"), wsPlus, reStr ("step"), RE.opt (RE.ch 's'),
    RE.ch ':', wsStar, captureTail]

/-- Pattern 5: `follow\s+up:\s*([^.!?]+[.!?])`. -/
def patFollowUp : RE :=
  reSeq [reStr ("follow"), wsPlus, reStr ("up"), RE.ch ':', wsStar, captureTail]

/-- Pattern 6 (helper class only): `\b(?:we\s+need\s+to|we\s+should)\s+([^.!?]+[.!?])`. -/
def patWeNeedTo : RE :=
  reSeq [RE.wordB,
    RE.alt (reSeq [reStr ("we"), wsPlus, reStr ("need"), wsPlus, reStr ("to")])
           (reSeq [reStr ("we"), wsPlus, reStr ("should")]),
    wsPlus, captureTail]

/-- Pattern 7 (helper class only):
`\b(?:please\s+)?(?:review|check|update|send|schedule|call|email)\s+([^.!?]+[.!?])`. -/
def patImperative : RE :=
  reSeq [RE.wordB, RE.opt (RE.seq (reStr ("please")) wsPlus),
    RE.alt (reStr ("review")) (RE.alt (reStr ("check")) (RE.alt (reStr ("update"))
      (RE.alt (reStr ("send")) (RE.alt (reStr ("schedule"))
        (RE.alt (reStr ("call")) (reStr ("email"))))))),
    wsPlus, captureTail]

/-- The pattern list of the app.js fallback (lines 714-720). -/
def appFallbackPatterns : List RE :=
  [patIWill, patINeedTo, patActionItem, patNextSteps, patFollowUp]

/-- The pattern list of the helper-class fallback (geminiHelper.js lines
174-182). -/
def geminiFallbackPatterns : List RE :=
  [patIWill, patINeedTo, patActionItem, patNextSteps, patFollowUp,
   patWeNeedTo, patImperative]

/-- The anchored cleanup pattern of app.js line 726:
`^(?:I\s+(?:will|'ll|need\s+to|have\s+to)\s+|(?:action\s+item|todo):\s*|next\s+steps?:\s*|follow\s+up:\s*)`
with flag i, applied by `replace(..., "")`. -/
def appCleanupPattern : RE :=
  RE.alt
    (reSeq [RE.ch 'I', wsPlus,
      RE.alt (reStr ("will")) (RE.alt (RE.seq (RE.ch apoCh) (reStr ("ll")))
        (RE.alt (reSeq [reStr ("need"), wsPlus, reStr ("to")])
                (reSeq [reStr ("have"), wsPlus, reStr ("to")]))),
      wsPlus])
    (RE.alt
      (reSeq [RE.alt (reSeq [reStr ("action"), wsPlus, reStr ("item")]) (reStr ("todo")),
        RE.ch ':', wsStar])
      (RE.alt
        (reSeq [reStr ("next"), wsPlus, reStr ("step"), RE.opt (RE.ch 's'), RE.ch ':', wsStar])
        (reSeq [reStr ("follow"), wsPlus, reStr ("up"), RE.ch ':', wsStar])))

/-! ## Action-item records -/

/-- Item shape produced by app.js (`extractActionItems` and its fallback):
no assignee information. -/
structure AItem where
  task : List Char
  deadline : JVal
  deadlineText : JVal

/-- Item shape produced by the helper class (geminiHelper.js): includes
assignee information. -/
structure GItem where
  task : List Char
  assignee : JVal
  assigneeReason : JVal
  deadline : JVal
  deadlineText : JVal

/-! ## Fallback extraction, app.js lines 711-751 -/

/-- Keep-first deduplication by case-folded task text, app.js lines
740-748 (`seenTasks` holds `item.task.toLowerCase()`). -/
def dedupCaseIns : List AItem → List (List Char) → List AItem
  | [], _ => []
  | i :: is, seen =>
    if seen.contains (lowerL i.task) then dedupCaseIns is seen
    else i :: dedupCaseIns is (lowerL i.task :: seen)

/-- The fallback extractor of app.js (lines 711-751): for each pattern,
collect the full matches, strip the leading commitment phrase with the
anchored cleanup replacement, trim, strip leading and trailing sentence
punctuation, keep results of length strictly between 5 and 300, then
deduplicate case-insensitively keeping first occurrences. -/
def extractActionItemsFallbackApp (text : List Char) : List AItem :=
  let actionItems := appFallbackPatterns.flatMap (fun pattern =>
    ((matchAll pattern text).map (fun m =>
      dropTrailing sentEnd ((jsTrimL (stripLeadingMatch appCleanupPattern m.1)).dropWhile sentEnd))).filterMap
      (fun cleanItem =>
        if 5 < cleanItem.length && cleanItem.length < 300 then
          some { task := cleanItem, deadline := JVal.jnull, deadlineText := JVal.jnull }
        else none))
  dedupCaseIns actionItems []

/-! ## Fallback extraction, geminiHelper.js lines 169-209 -/

/-- Keep-first deduplication by exact task text, geminiHelper.js lines
203-205 (`findIndex` compares `t.task === item.task`). -/
def dedupExact : List GItem → List (List Char) → List GItem
  | [], _ => []
  | i :: is, seen =>
    if seen.contains i.task then dedupExact is seen
    else i :: dedupExact is (i.task :: seen)

/-- The fallback extractor of the helper class (geminiHelper.js lines
169-209): for each pattern, collect the full matches, replace each by its
capture group (`match.replace(pattern, "$1")`), trim, keep results of
length strictly between 5 and 300 tagged Unassigned, then deduplicate by
exact task text keeping first occurrences. -/
def extractActionItemsFallbackGem (text : List Char) : List GItem :=
  let actionItems := geminiFallbackPatterns.flatMap (fun pattern =>
    ((matchAll pattern text).map (fun m => jsTrimL (replaceG1 pattern m.1))).filterMap
      (fun task =>
        if 5 < task.length && task.length < 300 then
          some { task := task,
                 assignee := JVal.jstr (("Unassigned").toList),
                 assigneeReason := JVal.jstr (("regex fallback - no attendee information available").toList),
                 deadline := JVal.jnull, deadlineText := JVal.jnull }
        else none))
  dedupExact actionItems []

/-! ## Response parsing, geminiHelper.js lines 105-167

The filter and map callbacks can throw a TypeError when a truthy `task`
property is not a string (`item.task.trim` is then not a function); a
thrown error is caught by the surrounding try and yields the empty list.
Throwing steps are modeled in the Option monad with `none` as the thrown
state. -/

/-- One evaluation of the filter callback (geminiHelper.js lines 123-136).
Strings, numbers, booleans and null fail the leading
`!item || typeof item !== "object"` guard, so the string branch below the
guard is unreachable; arrays pass the guard but have no `task` property. -/
def keepItem : JVal → Option Bool
  | JVal.jnull => some false
  | JVal.jbool _ => some false
  | JVal.jnum _ => some false
  | JVal.jstr _ => some false
  | JVal.jarr _ => some false
  | JVal.jobj fs =>
    match getField fs ("task") with
    | none => some false
    | some v =>
      if !truthy v then some false
      else
        match v with
        | JVal.jstr s => some (5 < (jsTrimL s).length && (jsTrimL s).length < 300)
        | _ => none

/-- One evaluation of the map callback (geminiHelper.js lines 136-157),
converting a kept item to the uniform object shape.  The string branch
mirrors the legacy-format branch of the source (unreachable after the
filter). -/
def convertItem : JVal → Option GItem
  | JVal.jstr s =>
    some { task := jsTrimL s,
           assignee := JVal.jstr (("Unassigned").toList),
           assigneeReason := JVal.jstr (("legacy format - no assignee information").toList),
           deadline := JVal.jnull, deadlineText := JVal.jnull }
  | JVal.jobj fs =>
    match getField fs ("task") with
    | some (JVal.jstr s) =>
      some { task := jsTrimL s,
             assignee := jsOr (getField fs ("assignee")) (JVal.jstr (("Unassigned").toList)),
             assigneeReason := jsOr (getField fs ("assigneeReason")) (JVal.jstr (("no clear assignee mentioned").toList)),
             deadline := jsOr (getField fs ("deadline")) JVal.jnull,
             deadlineText := jsOr (getField fs ("deadlineText")) JVal.jnull }
    | _ => none
  | _ => none

/-- The filter pass over the parsed array, propagating a thrown error. -/
def filterItems : List JVal → Option (List JVal)
  | [] => some []
  | v :: vs => do
    let b ← keepItem v
    let rest ← filterItems vs
    pure (if b then v :: rest else rest)

/-- Parsing of the model response (geminiHelper.js lines 105-167) given the
result of `JSON.parse` on the cleaned text: `none` stands for a thrown
parse error.  A non-array value returns the empty list; a thrown TypeError
during filter or map is caught and also returns the empty list. -/
def parseGeminiResponse (parsed : Option JVal) : List GItem :=
  match parsed with
  | none => []
  | some (JVal.jarr items) =>
    match (filterItems items).bind (fun kept => kept.mapM convertItem) with
    | some out => out
    | none => []
  | some _ => []

/-- The code-fence cleanup of geminiHelper.js line 108 and app.js line 650:
`trim().replace(/^¬¬¬json\s*/, "").replace(/\s*¬¬¬$/, "")` where ¬¬¬ is a
fence of three backticks.  Anchored literal replacements are computed
directly. -/
def cleanResponseText (s : List Char) : List Char :=
  let t := jsTrimL s
  let fence := ("```json").toList
  let t2 := if fence.isPrefixOf t then (t.drop 7).dropWhile jsWs else t
  let closing := ("```").toList
  if closing.isSuffixOf t2 then dropTrailing jsWs (t2.dropLast.dropLast.dropLast) else t2

/-! ## Generative-call retry loop, geminiHelper.js lines 11-103 -/

/-- An error thrown by the generative call: an optional numeric status and
a message. -/
structure GErr where
  status : Option Nat
  message : List Char

/-- Outcome of one attempt of the generative call: a response whose cleaned
text was JSON-parsed (`none` for a parse failure), or a thrown error. -/
inductive GOutcome where
  | ok : Option JVal → GOutcome
  | err : GErr → GOutcome

/-- geminiHelper.js line 7. -/
def maxRetries : Nat := 3

/-- geminiHelper.js line 8, in milliseconds. -/
def retryDelay : Nat := 2000

/-- geminiHelper.js lines 80-99: a thrown error is retryable when its
truthy status is one of the retryable codes or its lowercased message
contains one of the retryable fragments. -/
def isRetryableError (e : GErr) : Bool :=
  if (match e.status with
      | some s => (s != 0) && [429, 500, 502, 503, 504].contains s
      | none => false) then
    true
  else
    [("overloaded"), ("service unavailable"), ("rate limit"), ("timeout"),
     ("network error"), ("fetch failed")].any
      (fun m => seqContains (lowerL e.message) m.toList)

/-- The recursion of `GeminiHelper.extractActionItems` (lines 11-78),
driven by the outcome of each attempt (attempt k is `outcomes k`).  The
result records the parsed items, the number of attempts made, and the
total delay in milliseconds inserted between attempts.  On a retryable
error with `retryCount < maxRetries` the call sleeps `retryDelay` and
recurses with `retryCount + 1`; otherwise it returns the empty array.  The
fuel argument only bounds the recursion: starting from `maxRetries` the
invariant `fuel = maxRetries - retryCount` holds, so the zero-fuel arm is
only reached with `retryCount = maxRetries`, where it answers exactly as
the guarded branch of the source (no further retry, empty array). -/
def extractActionItemsFrom (outcomes : Nat → GOutcome) :
    Nat → Nat → List GItem × Nat × Nat
  | 0, retryCount =>
    (match outcomes retryCount with
     | GOutcome.ok parsed => (parseGeminiResponse parsed, retryCount + 1, 0)
     | GOutcome.err _ => ([], retryCount + 1, 0))
  | fuel + 1, retryCount =>
    match outcomes retryCount with
    | GOutcome.ok parsed => (parseGeminiResponse parsed, retryCount + 1, 0)
    | GOutcome.err e =>
      if isRetryableError e && decide (retryCount < maxRetries) then
        let r := extractActionItemsFrom outcomes fuel (retryCount + 1)
        (r.1, r.2.1, retryDelay + r.2.2)
      else ([], retryCount + 1, 0)

/-- The public entry `extractActionItems(text)` of the helper class, which
starts at `retryCount = 0`. -/
def extractActionItemsGem (outcomes : Nat → GOutcome) : List GItem × Nat × Nat :=
  extractActionItemsFrom outcomes maxRetries 0

/-! ## App-level extraction, app.js lines 612-708 -/

/-- One evaluation of the map callback of app.js lines 671-685 (no
assignee fields). -/
def convertItemApp : JVal → Option AItem
  | JVal.jstr s =>
    some { task := jsTrimL s, deadline := JVal.jnull, deadlineText := JVal.jnull }
  | JVal.jobj fs =>
    match getField fs ("task") with
    | some (JVal.jstr s) =>
      some { task := jsTrimL s,
             deadline := jsOr (getField fs ("deadline")) JVal.jnull,
             deadlineText := jsOr (getField fs ("deadlineText")) JVal.jnull }
    | _ => none
  | _ => none

/-- The app-level extractor (app.js lines 612-708).  `gen = none` stands
for a missing API key or a thrown generative call, both of which reach the
fallback; `gen = some parsed` is a received response with its JSON-parse
result.  A parse failure or a thrown TypeError reaches the fallback; a
parsed non-array returns the empty list directly. -/
def extractActionItemsApp (gen : Option (Option JVal)) (text : List Char) : List AItem :=
  match gen with
  | none => extractActionItemsFallbackApp text
  | some none => extractActionItemsFallbackApp text
  | some (some (JVal.jarr items)) =>
    match (filterItems items).bind (fun kept => kept.mapM convertItemApp) with
    | some out => out
    | none => extractActionItemsFallbackApp text
  | some (some _) => []

/-! ## Authentication middleware, src/unnamed/part_009 lines 6-103

The `userTokens` cookie is embedded after its two external steps: `none`
means no cookie (or an empty cookie string, which the source treats as
absent by truthiness); `some none` means the cookie string was present but
`JSON.parse` threw; `some (some v)` is the parsed value. -/

/-- Property access through a parsed value, undefined on non-objects
(except null, whose access throws and is handled at each use site). -/
def propGet (v : JVal) (k : String) : Option JVal :=
  match v with
  | JVal.jobj fs => getField fs k
  | _ => none

/-- Truthiness of a possibly absent property (undefined is falsy). -/
def truthyOpt (o : Option JVal) : Bool :=
  match o with
  | some v => truthy v
  | none => false

/-- Join character lists with a separator, the `Array.prototype.join`
used by the array-to-string conversion below. -/
def joinChar (c : Char) : List (List Char) → List Char
  | [] => []
  | [x] => x
  | x :: xs => x ++ c :: joinChar c xs

/-- JavaScript string conversion of a parsed value in array-element
position, as `Array.prototype.toString` produces it: null becomes the
empty string, booleans spell out, numbers print in decimal, nested
arrays join recursively with commas, plain objects give the fixed object
tag. -/
def jvalElemString : JVal → List Char
  | JVal.jnull => []
  | JVal.jbool true => ("true").toList
  | JVal.jbool false => ("false").toList
  | JVal.jnum n => (toString n).toList
  | JVal.jstr s => s
  | JVal.jobj _ => ("[object Object]").toList
  | JVal.jarr vs => joinChar ',' (vs.attach.map (fun x => jvalElemString x.1))
termination_by v => sizeOf v
decreasing_by
  simp_wf
  have := List.sizeOf_lt_of_mem x.2
  omega

/-- JavaScript `Number(string)` restricted to the numerics this
development models: surrounding whitespace is trimmed, the empty string
is 0, an optionally signed run of decimal digits is its integer value,
and every other string is NaN (`none`).  Fractional, exponent, hex and
infinity literals lie outside the integer domain of `JVal.jnum` and are
not modeled. -/
def jsStringToNumber (s : List Char) : Option Int :=
  match jsTrimL s with
  | [] => some 0
  | c :: rest =>
    let signed : Int × List Char :=
      if c == '+' then (1, rest)
      else if c == '-' then (-1, rest)
      else (1, c :: rest)
    if !signed.2.isEmpty && signed.2.all Char.isDigit then
      some (signed.1 * Int.ofNat
        (signed.2.foldl (fun acc d => acc * 10 + (d.toNat - ('0').toNat)) 0))
    else none

/-- JavaScript `ToNumber` on a parsed JSON value, as the relational
operator `>=` coerces its operand: null is 0, booleans are 0 or 1,
strings parse numerically, arrays convert through their joined string,
and plain objects (whose string form is the object tag) are NaN
(`none`). -/
def jsToNumber : JVal → Option Int
  | JVal.jnull => some 0
  | JVal.jbool b => some (if b then 1 else 0)
  | JVal.jnum n => some n
  | JVal.jstr s => jsStringToNumber s
  | JVal.jarr vs => jsStringToNumber (jvalElemString (JVal.jarr vs))
  | JVal.jobj _ => none

/-- The expired-token test of part_009 line 53 and app.js lines 258 and
489: a truthy `expiry_date` with `Date.now() >= expiry_date`.  The
comparison coerces the expiry to a number (so a truthy numeric string or
an array converting to a numeric string does expire); a NaN coercion
makes the comparison false. -/
def tokenExpired (tokens : JVal) (now : Int) : Bool :=
  match propGet tokens ("expiry_date") with
  | some v =>
    truthy v && (match jsToNumber v with
                 | some e => decide (e ≤ now)
                 | none => false)
  | none => false

/-- Result of the authentication gate: an error response, or the values it
attaches to the request (`req.userTokens` and `req.userId`). -/
inductive AuthResult where
  | reject : Nat → String → AuthResult
  | ok : JVal → JVal → AuthResult

/-- The authentication middleware `authenticateUser` of part_009 lines
6-103.  A parsed null makes the first property access throw; the
surrounding catch answers 500. -/
def authenticateUser (cookie : Option (Option JVal)) (now : Int) : AuthResult :=
  match cookie with
  | none => AuthResult.reject 401 ("Not authenticated. Please sign in again.")
  | some none => AuthResult.reject 401 ("Invalid authentication tokens")
  | some (some JVal.jnull) => AuthResult.reject 500 ("Authentication error")
  | some (some tokens) =>
    if !truthyOpt (propGet tokens ("access_token")) then
      AuthResult.reject 401 ("Invalid authentication tokens")
    else if tokenExpired tokens now then
      AuthResult.reject 401 ("Authentication expired. Please sign in again.")
    else
      match propGet tokens ("access_token") with
      | some (JVal.jstr s) =>
        if s.length < 10 then AuthResult.reject 401 ("Invalid authentication tokens")
        else AuthResult.ok tokens (jsOr (propGet tokens ("user_id")) (JVal.jstr (("unknown").toList)))
      | _ => AuthResult.reject 401 ("Invalid authentication tokens")

/-! ## Session-validation middleware, part_009 lines 294-321 -/

/-- Observable outcome of `validateSession`, which always calls next:
whether the cookie was cleared, and the values attached to the request. -/
structure SessionOutcome where
  cleared : Bool
  userTokens : Option JVal
  userId : Option JVal

/-- The global session-validation middleware of part_009 lines 294-321.
A missing cookie passes through untouched; a parse failure (or parsed
null, whose property access throws into the same catch) clears the
cookie; a truthy expired `expiry_date` clears the cookie; otherwise the
parsed bundle and a user id are attached. -/
def validateSession (cookie : Option (Option JVal)) (now : Int) : SessionOutcome :=
  match cookie with
  | none => { cleared := false, userTokens := none, userId := none }
  | some none => { cleared := true, userTokens := none, userId := none }
  | some (some JVal.jnull) => { cleared := true, userTokens := none, userId := none }
  | some (some tokens) =>
    if tokenExpired tokens now then
      { cleared := true, userTokens := none, userId := none }
    else
      { cleared := false, userTokens := some tokens,
        userId := some (jsOr (propGet tokens ("user_id")) (JVal.jstr (("unknown").toList))) }

/-! ## CSRF middleware, part_009 lines 148-189 -/

/-- Collapse an empty string to absence, matching JavaScript truthiness of
the token expressions in the middleware. -/
def jsStrOpt (o : Option String) : Option String :=
  match o with
  | some s => if s.isEmpty then none else some s
  | none => none

/-- The CSRF middleware of part_009 lines 148-189: GET, HEAD and OPTIONS
pass; otherwise the X-CSRF-Token header (or, when that is falsy, the
_csrf body field) must be present and equal to the csrfToken cookie.
`none` means the middleware calls next; `some` is its error response. -/
def csrfProtection (method : String) (headerTok bodyTok cookieTok : Option String) :
    Option (Nat × String) :=
  if method == ("GET") || method == ("HEAD") || method == ("OPTIONS") then none
  else
    match (jsStrOpt headerTok).orElse (fun _ => jsStrOpt bodyTok), jsStrOpt cookieTok with
    | some t, some s =>
      if t == s then none else some (403, ("CSRF token validation failed"))
    | _, _ => some (403, ("CSRF token validation failed"))

/-! ## Task validation, part_009 lines 441-471

The express-validator chain on the task field: trim, length between 1 and
8192, then a custom check throwing on any of six script patterns, then a
check for any HTML tag.  The embedded patterns carry their source flags
(gi on the six, none on the tag check, which has no cased literal). -/

/-- Tag-pair pattern such as
`<script\b[^<]*(?:(?!<\/script>)<[^<]*)*<\/script>`, parameterized by the
tag name as in the source list (script, iframe, object, embed). -/
def tagPairPattern (name : String) : RE :=
  reSeq [RE.ch '<', reStr name, RE.wordB, RE.star (RE.cls (fun c => c != '<')),
    RE.star (reSeq [RE.nla (reSeq [RE.ch '<', RE.ch '/', reStr name, RE.ch '>']),
      RE.ch '<', RE.star (RE.cls (fun c => c != '<'))]),
    RE.ch '<', RE.ch '/', reStr name, RE.ch '>']

/-- The pattern `javascript:`. -/
def patJsUri : RE := reStr ("javascript:")

/-- The pattern `on\w+\s*=` for event-handler attributes. -/
def patOnHandler : RE :=
  reSeq [reStr ("on"), rePlus (RE.cls jsWordChar), wsStar, RE.ch '=']

/-- The pattern `<[^>]*>` catching any HTML tag. -/
def patHtmlTag : RE :=
  reSeq [RE.ch '<', RE.star (RE.cls (fun c => c != '>')), RE.ch '>']

/-- The six xssPatterns of part_009 lines 448-455. -/
def xssPatterns : List RE :=
  [tagPairPattern ("script"), patJsUri, patOnHandler,
   tagPairPattern ("iframe"), tagPairPattern ("object"), tagPairPattern ("embed")]

/-- Acceptance of the validateTask chain (part_009 lines 441-471) on the
task value as the validator receives it: the trimmed value must have
length in [1, 8192], match none of the six script patterns, and contain
no HTML tag. -/
def validateTaskPasses (task : List Char) : Bool :=
  let t := jsTrimL task
  (1 ≤ t.length && t.length ≤ 8192)
    && xssPatterns.all (fun p => !reTest p t)
    && !reTest patHtmlTag t

/-! ## Task-confirmation validation, part_009 lines 502-518 -/

/-- An element of the confirmed-task batch: either a bare string or an
object with optional task and deadline fields (the shapes the handler in
app.js lines 515-517 distinguishes). -/
inductive TaskObj where
  | str : List Char → TaskObj
  | obj : Option (List Char) → Option (List Char) → TaskObj

/-- The task text the handler selects (app.js line 516). -/
def taskTextOf : TaskObj → Option (List Char)
  | TaskObj.str s => some s
  | TaskObj.obj t _ => t

/-- The deadline the handler selects (app.js line 517). -/
def deadlineOf : TaskObj → Option (List Char)
  | TaskObj.str _ => none
  | TaskObj.obj _ d => d

/-- The request body of POST /confirm-tasks: either a tasks field that is
not an array (or absent), or the array of elements. -/
inductive ConfirmBody where
  | notArray : ConfirmBody
  | arr : List TaskObj → ConfirmBody

/-- Left and right curly brace characters, written by code point. -/
def braceL : Char := Char.ofNat 123

/-- Right curly brace. -/
def braceR : Char := Char.ofNat 125

/-- Per-element validation of part_009 lines 506-516: an optional task
field is trimmed, must have length in [1, 8192] and match the whitelist
`^[^<>{}]*$`; an optional deadline must satisfy the external ISO-8601
test, abstracted as the `iso` parameter.  Bare strings carry neither
field, so both optional validators skip them. -/
def confirmItemValid (iso : List Char → Bool) : TaskObj → Bool
  | TaskObj.str _ => true
  | TaskObj.obj task dl =>
    (match task with
     | none => true
     | some s =>
       let t := jsTrimL s
       (1 ≤ t.length && t.length ≤ 8192)
         && t.all (fun c => !(c == '<' || c == '>' || c == braceL || c == braceR)))
    && (match dl with | none => true | some d => iso d)

/-- Acceptance of the validateTaskConfirmation chain (part_009 lines
502-518): the tasks field must be an array of 1 to 100 elements and every
element must pass its field checks. -/
def validateTaskConfirmationCheck (iso : List Char → Bool) : ConfirmBody → Bool
  | ConfirmBody.notArray => false
  | ConfirmBody.arr ts =>
    (1 ≤ ts.length && ts.length ≤ 100) && ts.all (confirmItemValid iso)

/-! ## File-content validation, middleware/fileUpload.js as documented in
src/README.md lines 362-444 -/

/-- Result of the middleware: an error response or next. -/
inductive FileResult where
  | reject : Nat → String → FileResult
  | next : FileResult

/-- The PDF magic bytes %PDF. -/
def pdfMagic : List Nat := [0x25, 0x50, 0x44, 0x46]

/-- README lines 374-375: every of the four magic bytes must equal the
byte at its index (an out-of-range read is undefined and fails the
comparison). -/
def pdfMagicOk (buf : List Nat) : Bool :=
  pdfMagic.enum.all (fun p => buf.get? p.1 == some p.2)

/-- The suspicious content markers of README lines 397-405, as byte
sequences.  The markers are ASCII literals, so the utf8 decode of the
source followed by a literal regex test holds exactly when the byte
sequence occurs in the scanned prefix. -/
def suspiciousByteSeqs : List (List Nat) :=
  [("/JavaScript"), ("/JS"), ("/Launch"), ("/SubmitForm"), ("/ImportData"),
   ("/RichMedia"), ("/XFA")].map (fun s => s.toList.map Char.toNat)

/-- The validateFileContent middleware (README lines 362-444).  The
declared MIME type is part of the request but never consulted by this
middleware. -/
def validateFileContent (filePresent : Bool) (buf : List Nat) (mimetype : String) :
    FileResult :=
  if !filePresent then FileResult.reject 400 ("No file uploaded")
  else if !pdfMagicOk buf then FileResult.reject 400 ("Invalid PDF file content")
  else
    let content := buf.take 10000
    if suspiciousByteSeqs.any (fun p => seqContains content p) then
      FileResult.reject 400 ("PDF contains potentially harmful content")
    else FileResult.next

/-! ## Endpoint pipelines

Responses are reduced to their observable pair (status-carrying error or
success JSON with message).  Rate limiters are not modeled: they depend
only on request volume, never on the fields any claim quantifies over.
The authorizeResource middleware always calls next once authentication
has attached a user id (the id defaults to the truthy string unknown), so
it adds no branch. -/

/-- Observable response of an endpoint. -/
inductive Response where
  | status : Nat → String → Response
  | json : Bool → String → Response

/-- Outcome of POST /add-task (app.js lines 242-351): the middleware chain
is authenticateUser, csrfProtection, authorizeResource, validateTask,
then the handler.  The handler is abstracted to its remote effect: a
token bundle that passed authentication cannot satisfy the refresh
condition (same truthy-expiry test already rejected), so the handler
always reaches the Tasks API; its distinct remote failure modes are
collapsed into the insertOk oracle, which no claim distinguishes. -/
structure AddTaskResult where
  response : Response
  tasksApiCalled : Bool

/-- POST /add-task pipeline. -/
def addTaskEndpoint (cookie : Option (Option JVal)) (now : Int)
    (headerTok bodyTok cookieCsrf : Option String)
    (task : List Char) (insertOk : Bool) : AddTaskResult :=
  match authenticateUser cookie now with
  | AuthResult.reject n m => { response := Response.status n m, tasksApiCalled := false }
  | AuthResult.ok _ _ =>
    match csrfProtection ("POST") headerTok bodyTok cookieCsrf with
    | some (n, m) => { response := Response.status n m, tasksApiCalled := false }
    | none =>
      if validateTaskPasses task then
        { response :=
            if insertOk then Response.json true ("Task created successfully")
            else Response.status 500 ("Failed to create task"),
          tasksApiCalled := true }
      else { response := Response.status 400 ("Validation failed"), tasksApiCalled := false }

/-! ## POST /confirm-tasks, app.js lines 474-575 -/

/-- A Tasks API insertion request body (title and optional due field). -/
structure TaskReq where
  title : List Char
  due : Option (List Char)

/-- The attempted test of app.js line 519: `taskText && taskText.trim()`. -/
def attemptedItem (t : TaskObj) : Bool :=
  match taskTextOf t with
  | none => false
  | some s => !s.isEmpty && !(jsTrimL s).isEmpty

/-- The due computation of app.js lines 523-528: a truthy deadline is
parsed by `new Date`; the ISO string is attached only when the date is
valid.  The external date parser is the pd parameter (`pd d = some iso`
exactly when `new Date(d)` is valid with ISO form iso). -/
def mkDue (pd : List Char → Option (List Char)) (dl : Option (List Char)) :
    Option (List Char) :=
  match dl with
  | some d => if d.isEmpty then none else pd d
  | none => none

/-- The insertion request built for one attempted item (app.js lines
521-528). -/
def mkReq (pd : List Char → Option (List Char)) (t : TaskObj) : TaskReq :=
  { title := jsTrimL ((taskTextOf t).getD []), due := mkDue pd (deadlineOf t) }

/-- The per-item loop of app.js lines 515-545: the k-th insertion call
succeeds when `api k` holds; a failed insertion is logged and the loop
continues; the original (untrimmed) task text of each successful
insertion is collected. -/
def confirmLoop (pd : List Char → Option (List Char)) (api : Nat → Bool) :
    List TaskObj → Nat → List TaskReq × List (List Char)
  | [], _ => ([], [])
  | t :: ts, k =>
    if attemptedItem t then
      let rest := confirmLoop pd api ts (k + 1)
      (mkReq pd t :: rest.1,
       (if api k then [(taskTextOf t).getD []] else []) ++ rest.2)
    else confirmLoop pd api ts k

/-- The final response of the handler (app.js lines 554-564). -/
def confirmResponse (created : List (List Char)) : Response :=
  if created.length > 0 then
    Response.json true (("Successfully created ") ++ toString created.length ++ (" task(s)."))
  else
    Response.json false ("Failed to create any tasks. Please try again.")

/-- Observable outcome of POST /confirm-tasks: the response and the number
of remote insertion calls made. -/
structure ConfirmResult where
  response : Response
  insertCalls : Nat

/-- POST /confirm-tasks pipeline (app.js lines 474-575).  The registered
chain is the rate limiter, authenticateUser, authorizeResource,
validateTaskConfirmation, then the handler: it holds no csrfProtection
entry, so the three CSRF arguments are never consulted; they stay in the
signature so that claims about requests lacking CSRF tokens can be
stated.  As for /add-task, a bundle that passed authentication cannot
satisfy the refresh condition, so the handler proceeds to the insertion
loop. -/
def confirmTasksEndpoint (cookie : Option (Option JVal)) (now : Int)
    (headerTok bodyTok cookieCsrf : Option String)
    (iso : List Char → Bool) (pd : List Char → Option (List Char))
    (api : Nat → Bool) (body : ConfirmBody) : ConfirmResult :=
  match authenticateUser cookie now with
  | AuthResult.reject n m => { response := Response.status n m, insertCalls := 0 }
  | AuthResult.ok _ _ =>
    match body with
    | ConfirmBody.notArray =>
      { response := Response.status 400 ("Validation failed"), insertCalls := 0 }
    | ConfirmBody.arr ts =>
      if validateTaskConfirmationCheck iso (ConfirmBody.arr ts) then
        let r := confirmLoop pd api ts 0
        { response := confirmResponse r.2, insertCalls := r.1.length }
      else
        { response := Response.status 400 ("Validation failed"), insertCalls := 0 }

/-- Message containment test (for claims stating a response message
contains a fragment). -/
def msgContains (msg fragment : String) : Bool :=
  seqContains msg.toList fragment.toList

/-! ## Concrete inputs and auxiliary predicates used by the theorems -/

/-- The example transcript of the specification (the apostrophe is written
by code point). -/
def demoText : List Char :=
  (("John: I") ++ String.mk [apoCh] ++
    ("ll review the budget by Friday. Sarah: I need to schedule a meeting.")).toList

/-- A task of 8193 characters: 8192 letters followed by one space. -/
def paddedTask : List Char := List.replicate 8192 'a' ++ [' ']

/-- A parsed token bundle that passes every authentication check. -/
def okBundle : JVal :=
  JVal.jobj [(("access_token"), JVal.jstr (("abcdefghij1234").toList)),
             (("expiry_date"), JVal.jnum 2000000000000)]

/-- The parsed bundle of the specification scenario: a short access token
with a past expiry. -/
def expiredBundle : JVal :=
  JVal.jobj [(("access_token"), JVal.jstr (("t").toList)),
             (("expiry_date"), JVal.jnum 1000)]

/-- A parsed bundle whose expiry_date is the falsy number zero. -/
def zeroExpiryBundle : JVal :=
  JVal.jobj [(("access_token"), JVal.jstr (("abcdefghij").toList)),
             (("expiry_date"), JVal.jnum 0)]

/-- A parsed session cookie whose expiry_date is the falsy number zero. -/
def zeroExpirySession : JVal := JVal.jobj [(("expiry_date"), JVal.jnum 0)]

/-- An attempt oracle on which every generative call throws a retryable
503 error. -/
def always503 : Nat → GOutcome :=
  fun _ => GOutcome.err { status := some 503, message := [] }

/-- A transcript on which the helper-class regex fallback finds items. -/
def c1text : List Char := ("todo: send the email.").toList

/-- Attempt i of the oracle throws a retryable error exactly when the
predicate holds. -/
def retryableAt (outcomes : Nat → GOutcome) (i : Nat) : Prop :=
  ∃ e, outcomes i = GOutcome.err e ∧ isRetryableError e = true

/-- Every character of the list is the letter a. -/
def allA (s : List Char) : Prop := ∀ c ∈ s, c = 'a'

/-- The list is empty or starts with the letter a. -/
def headA (s : List Char) : Prop := s = [] ∨ ∃ xs, s = 'a' :: xs

/-- The pattern can match nothing at this position, whatever the fuel and
capture state. -/
def headBlockedAt (p : Option Char) (s : List Char) (r : RE) : Prop :=
  ∀ fuel cap, reMatch fuel r p s cap = []

/-- The five active-content markers named by the specification (the source
list additionally holds /JS and /ImportData). -/
def claimMarkers : List String :=
  [("/JavaScript"), ("/Launch"), ("/SubmitForm"), ("/RichMedia"), ("/XFA")]

/-! ## Claim theorems -/

/-- Claim C1, counterexample.  On four consecutive retryable 503 errors
the helper extractor returns the empty list, not the result of its regex
fallback: on the transcript given here the fallback is nonempty and
differs from the empty result, so exhausted retries do not fall through
to the regex fallback inside the helper class. -/
theorem claim_C1_counterexample :
    (extractActionItemsGem always503).1 = [] ∧
    extractActionItemsGem always503 = ([], 4, 6000) ∧
    extractActionItemsFallbackGem c1text ≠ [] ∧
    (extractActionItemsGem always503).1 ≠ extractActionItemsFallbackGem c1text := by
  have hfb : extractActionItemsFallbackGem c1text =
      [{ task := ("send the email.").toList,
         assignee := JVal.jstr (("Unassigned").toList),
         assigneeReason := JVal.jstr (("regex fallback - no attendee information available").toList),
         deadline := JVal.jnull, deadlineText := JVal.jnull },
       { task := ("the email.").toList,
         assignee := JVal.jstr (("Unassigned").toList),
         assigneeReason := JVal.jstr (("regex fallback - no attendee information available").toList),
         deadline := JVal.jnull, deadlineText := JVal.jnull }] := rfl
  refine ⟨rfl, rfl, ?_, ?_⟩
  · rw [hfb]; exact List.cons_ne_nil _ _
  · rw [hfb, show (extractActionItemsGem always503).1 = [] from rfl]
    exact fun h => List.noConfusion h

/-- One attempt whose call succeeds returns the parsed response at once
(geminiHelper.js lines 56-62). -/
theorem extractFrom_ok_step (outcomes : Nat → GOutcome) (rc fuel : Nat)
    (parsed : Option JVal) (h : outcomes rc = GOutcome.ok parsed) :
    extractActionItemsFrom outcomes fuel rc = (parseGeminiResponse parsed, rc + 1, 0) := by
  cases fuel <;> simp [extractActionItemsFrom, h]

/-- One attempt whose call throws without a permitted retry returns the
empty list (geminiHelper.js lines 64-77). -/
theorem extractFrom_stop_step (outcomes : Nat → GOutcome) (rc fuel : Nat)
    (e : GErr) (h : outcomes rc = GOutcome.err e)
    (hg : (isRetryableError e && decide (rc < maxRetries)) = false) :
    extractActionItemsFrom outcomes fuel rc = ([], rc + 1, 0) := by
  cases fuel <;> simp [extractActionItemsFrom, h, hg]

/-- A run whose first n attempts throw retryable errors is the run from
attempt n, with n delays of retryDelay prepended. -/
theorem extractFrom_shift (outcomes : Nat → GOutcome) :
    ∀ (n fuel rc : Nat), n ≤ fuel → rc + n ≤ maxRetries →
    (∀ i, i < n → retryableAt outcomes (rc + i)) →
    extractActionItemsFrom outcomes fuel rc =
      ((extractActionItemsFrom outcomes (fuel - n) (rc + n)).1,
       (extractActionItemsFrom outcomes (fuel - n) (rc + n)).2.1,
       retryDelay * n + (extractActionItemsFrom outcomes (fuel - n) (rc + n)).2.2) := by
  intro n
  induction n with
  | zero => intro fuel rc _ _ _; simp
  | succ n ih =>
    intro fuel rc hfuel hmax hr
    obtain ⟨e, he, hre⟩ := hr 0 (Nat.succ_pos n)
    rw [Nat.add_zero] at he
    obtain ⟨f, rfl⟩ : ∃ f, fuel = f + 1 := by
      cases fuel with
      | zero => omega
      | succ f => exact ⟨f, rfl⟩
    have hrc : decide (rc < maxRetries) = true := by
      simp [maxRetries] at hmax ⊢; omega
    have step : extractActionItemsFrom outcomes (f + 1) rc =
        ((extractActionItemsFrom outcomes f (rc + 1)).1,
         (extractActionItemsFrom outcomes f (rc + 1)).2.1,
         retryDelay + (extractActionItemsFrom outcomes f (rc + 1)).2.2) := by
      simp [extractActionItemsFrom, he, hre, hrc]
    have ihe := ih f (rc + 1) (by omega) (by omega)
      (fun i hi => by
        have := hr (i + 1) (by omega)
        rwa [show rc + (i + 1) = rc + 1 + i by omega] at this)
    rw [step, ihe,
      show f + 1 - (n + 1) = f - n by omega,
      show rc + (n + 1) = rc + 1 + n by omega]
    simp only [Prod.mk.injEq, true_and]
    rw [Nat.mul_succ]
    omega

/-- Claim C1, amended.  The helper extractor retries a retryable error up
to maxRetries = 3 additional attempts with a fixed retryDelay = 2000 ms
between attempts: after k retryable errors a successful attempt k <= 3
returns its parsed response with k + 1 attempts and 2000 k ms of delay,
and a non-retryable error at attempt k returns the EMPTY list (not the
regex fallback) with the same accounting; when all four attempts throw
retryable errors the extractor returns the empty list after 4 attempts
and 6000 ms of delay, again without invoking the regex fallback. -/
theorem claim_C1 (outcomes : Nat → GOutcome) :
    (∀ k parsed, k ≤ maxRetries → (∀ i, i < k → retryableAt outcomes i) →
      outcomes k = GOutcome.ok parsed →
      extractActionItemsGem outcomes = (parseGeminiResponse parsed, k + 1, retryDelay * k)) ∧
    (∀ k e, k ≤ maxRetries → (∀ i, i < k → retryableAt outcomes i) →
      outcomes k = GOutcome.err e → isRetryableError e = false →
      extractActionItemsGem outcomes = ([], k + 1, retryDelay * k)) ∧
    ((∀ i, i ≤ maxRetries → retryableAt outcomes i) →
      extractActionItemsGem outcomes = ([], maxRetries + 1, retryDelay * maxRetries)) := by
  refine ⟨?_, ?_, ?_⟩
  · intro k parsed hk hr hok
    have := extractFrom_shift outcomes k maxRetries 0 (by simpa [maxRetries] using hk)
      (by omega) (fun i hi => by simpa using hr i hi)
    rw [extractActionItemsGem, this,
      extractFrom_ok_step outcomes (0 + k) (maxRetries - k) parsed (by simpa using hok)]
    simp [Nat.add_comm]
  · intro k e hk hr herr hre
    have := extractFrom_shift outcomes k maxRetries 0 (by simpa [maxRetries] using hk)
      (by omega) (fun i hi => by simpa using hr i hi)
    rw [extractActionItemsGem, this,
      extractFrom_stop_step outcomes (0 + k) (maxRetries - k) e (by simpa using herr)
        (by simp [hre])]
    simp [Nat.add_comm]
  · intro hr
    have := extractFrom_shift outcomes maxRetries maxRetries 0 (Nat.le_refl _)
      (by omega) (fun i hi => by simpa using hr i (Nat.le_of_lt hi))
    obtain ⟨e, he, hre⟩ := hr maxRetries (Nat.le_refl _)
    rw [extractActionItemsGem, this,
      extractFrom_stop_step outcomes (0 + maxRetries) (maxRetries - maxRetries) e
        (by simpa using he) (by simp)]
    simp [Nat.add_comm]

/-- Claim C1, witness: one retryable 429 error followed by a successful
attempt yields the parsed result after 2 attempts with one 2000 ms
delay. -/
theorem claim_C1_witness :
    extractActionItemsGem
      (fun i => if i == 0 then GOutcome.err { status := some 429, message := [] }
                else GOutcome.ok (some (JVal.jarr []))) = ([], 2, 2000) :=
  (claim_C1 _).1 1 (some (JVal.jarr []))
    (by simp [maxRetries])
    (fun i hi => by
      interval_cases i
      exact ⟨{ status := some 429, message := [] }, rfl, by decide⟩)
    rfl

/-- Claim C2.  The parser drops a legacy string-only item instead of
normalizing it: the leading typeof guard of the filter rejects every
string, making the string branches of the filter and of the map dead
code, so an array holding one usable legacy string parses to the empty
list, while the dead conversion branch (evaluated directly) shows the
object the claim expects. -/
theorem claim_C2 :
    parseGeminiResponse (some (JVal.jarr [JVal.jstr (("review the quarterly budget").toList)])) = []
    ∧ keepItem (JVal.jstr (("review the quarterly budget").toList)) = some false
    ∧ convertItem (JVal.jstr (("review the quarterly budget").toList)) =
        some { task := ("review the quarterly budget").toList,
               assignee := JVal.jstr (("Unassigned").toList),
               assigneeReason := JVal.jstr (("legacy format - no assignee information").toList),
               deadline := JVal.jnull, deadlineText := JVal.jnull } :=
  ⟨rfl, rfl, rfl⟩

/-- Claim C3, counterexample.  On the specification input the app-level
fallback (the one reached when the generative path is unavailable) yields
exactly ONE item, with task text "schedule a meeting" (trailing period
stripped by the cleanup) and no assignee field, because the pattern
requiring whitespace between I and the contraction never matches the
apostrophe form; the helper-class fallback yields THREE items, none
equal to the pair the claim expects. -/
theorem claim_C3_counterexample :
    extractActionItemsApp none demoText =
      [{ task := ("schedule a meeting").toList, deadline := JVal.jnull,
         deadlineText := JVal.jnull }]
    ∧ (extractActionItemsFallbackGem demoText).map GItem.task =
        [("schedule a meeting.").toList, ("the budget by Friday.").toList,
         ("a meeting.").toList]
    ∧ (extractActionItemsFallbackGem demoText).map GItem.task ≠
        [("review the budget by Friday.").toList, ("schedule a meeting.").toList] := by
  refine ⟨rfl, rfl, ?_⟩
  rw [show (extractActionItemsFallbackGem demoText).map GItem.task =
      [("schedule a meeting.").toList, ("the budget by Friday.").toList,
       ("a meeting.").toList] from rfl]
  decide

/-- Claim C3, amended.  With the generative path unavailable, the
app-level fallback extraction yields exactly one item with task text
"schedule a meeting" (commitment prefix and trailing punctuation
stripped, no assignee field), and the helper-class fallback yields the
three items "schedule a meeting.", "the budget by Friday." and
"a meeting.", each tagged with assignee Unassigned. -/
theorem claim_C3 :
    extractActionItemsApp none demoText =
      [{ task := ("schedule a meeting").toList, deadline := JVal.jnull,
         deadlineText := JVal.jnull }]
    ∧ extractActionItemsFallbackGem demoText =
        [{ task := ("schedule a meeting.").toList,
           assignee := JVal.jstr (("Unassigned").toList),
           assigneeReason := JVal.jstr (("regex fallback - no attendee information available").toList),
           deadline := JVal.jnull, deadlineText := JVal.jnull },
         { task := ("the budget by Friday.").toList,
           assignee := JVal.jstr (("Unassigned").toList),
           assigneeReason := JVal.jstr (("regex fallback - no attendee information available").toList),
           deadline := JVal.jnull, deadlineText := JVal.jnull },
         { task := ("a meeting.").toList,
           assignee := JVal.jstr (("Unassigned").toList),
           assigneeReason := JVal.jstr (("regex fallback - no attendee information available").toList),
           deadline := JVal.jnull, deadlineText := JVal.jnull }] :=
  ⟨rfl, rfl⟩

/-- Claim C5, counterexample.  A parsed bundle with a valid access token
and expiry_date = 0 satisfies expiry_date <= now, yet the gate succeeds
and attaches the bundle: the source only compares a TRUTHY expiry_date,
and 0 is falsy. -/
theorem claim_C5_counterexample :
    authenticateUser (some (some zeroExpiryBundle)) 1700000000000
      = AuthResult.ok zeroExpiryBundle (JVal.jstr (("unknown").toList))
    ∧ (0 : Int) ≤ 1700000000000 :=
  ⟨rfl, by decide⟩

/-- Claim C5, amended.  The gate answers 401 when the cookie is absent,
is unparseable JSON, or lacks a truthy access_token; it answers 401 with
a message containing "Authentication expired" when a NONZERO numeric
expiry_date satisfies expiry_date <= now (a zero expiry_date is falsy and
skips the check); on success the attached bundle is exactly the parsed
cookie; and the specification scenario (short access token, past expiry)
yields 401 "Authentication expired. Please sign in again." on
/add-task before any remote call. -/
theorem claim_C5 (cookie : Option (Option JVal)) (now : Int) :
    (cookie = none →
      authenticateUser cookie now =
        AuthResult.reject 401 ("Not authenticated. Please sign in again.")) ∧
    (cookie = some none →
      authenticateUser cookie now =
        AuthResult.reject 401 ("Invalid authentication tokens")) ∧
    (∀ v, cookie = some (some v) → v ≠ JVal.jnull →
      truthyOpt (propGet v ("access_token")) = false →
      authenticateUser cookie now =
        AuthResult.reject 401 ("Invalid authentication tokens")) ∧
    (∀ v e, cookie = some (some v) →
      truthyOpt (propGet v ("access_token")) = true →
      propGet v ("expiry_date") = some (JVal.jnum e) → e ≠ 0 → e ≤ now →
      ∃ m, authenticateUser cookie now = AuthResult.reject 401 m ∧
        msgContains m ("Authentication expired") = true) ∧
    (∀ tokens uid, authenticateUser cookie now = AuthResult.ok tokens uid →
      cookie = some (some tokens)) ∧
    (∀ hT bT cT task ins,
      addTaskEndpoint (some (some expiredBundle)) 1700000000000 hT bT cT task ins =
        { response := Response.status 401 ("Authentication expired. Please sign in again."),
          tasksApiCalled := false }) := by
  refine ⟨?_, ?_, ?_, ?_, ?_, ?_⟩
  · rintro rfl; rfl
  · rintro rfl; rfl
  · rintro v rfl hnn hacc
    cases v with
    | jnull => exact absurd rfl hnn
    | jbool b => simp [authenticateUser, hacc]
    | jnum n => simp [authenticateUser, hacc]
    | jstr s => simp [authenticateUser, hacc]
    | jarr xs => simp [authenticateUser, hacc]
    | jobj fs => simp [authenticateUser, hacc]
  · rintro v e rfl hacc hexp he0 hle
    cases v with
    | jobj fs =>
      refine ⟨("Authentication expired. Please sign in again."), ?_, by decide⟩
      have hexpd : tokenExpired (JVal.jobj fs) now = true := by
        simp [tokenExpired, hexp, truthy, jsToNumber, he0, hle]
      simp [authenticateUser, hacc, hexpd]
    | jnull => simp [propGet, truthyOpt] at hacc
    | jbool b => simp [propGet, truthyOpt] at hacc
    | jnum n => simp [propGet, truthyOpt] at hacc
    | jstr s => simp [propGet, truthyOpt] at hacc
    | jarr xs => simp [propGet, truthyOpt] at hacc
  · intro tokens uid h
    cases cookie with
    | none => simp [authenticateUser] at h
    | some inner =>
      cases inner with
      | none => simp [authenticateUser] at h
      | some v =>
        cases v <;> simp only [authenticateUser] at h <;>
          (repeat' split at h) <;> simp at h <;>
          (obtain ⟨rfl, rfl⟩ := h; rfl)
  · intro hT bT cT task ins
    rfl

/-- Claim C5, witness: the absent-cookie case of the amended theorem at a
concrete time. -/
theorem claim_C5_witness :
    authenticateUser none 5 =
      AuthResult.reject 401 ("Not authenticated. Please sign in again.") :=
  (claim_C5 none 5).1 rfl

/-- Claim C9, counterexample.  A parsed session cookie with
expiry_date = 0 satisfies expiry_date <= now, yet the session middleware
does not clear it and attaches the bundle: only a truthy expiry_date is
compared, and 0 is falsy. -/
theorem claim_C9_counterexample :
    validateSession (some (some zeroExpirySession)) 1700000000000 =
      { cleared := false, userTokens := some zeroExpirySession,
        userId := some (JVal.jstr (("unknown").toList)) }
    ∧ (0 : Int) ≤ 1700000000000 :=
  ⟨rfl, by decide⟩

/-- Claim C9, amended.  The global session middleware lets every request
proceed: with no cookie it changes nothing; with an unparseable cookie it
clears the cookie and attaches nothing; with a parsed cookie whose
truthy expiry_date coerces to a number e with e <= now it clears the
cookie and attaches nothing — stated below both for a NONZERO numeric
expiry_date (a zero one is falsy and skips the check) and for a nonempty
numeric-string expiry_date, which the >= comparison coerces; in every
remaining case (including an expiry whose coercion is NaN) it attaches
the parsed bundle and a user id without clearing. -/
theorem claim_C9 (cookie : Option (Option JVal)) (now : Int) :
    (cookie = none →
      validateSession cookie now = { cleared := false, userTokens := none, userId := none }) ∧
    (cookie = some none →
      validateSession cookie now = { cleared := true, userTokens := none, userId := none }) ∧
    (∀ v e, cookie = some (some v) →
      propGet v ("expiry_date") = some (JVal.jnum e) → e ≠ 0 → e ≤ now →
      validateSession cookie now = { cleared := true, userTokens := none, userId := none }) ∧
    (∀ v s e, cookie = some (some v) →
      propGet v ("expiry_date") = some (JVal.jstr s) → s ≠ [] →
      jsStringToNumber s = some e → e ≤ now →
      validateSession cookie now = { cleared := true, userTokens := none, userId := none }) ∧
    (∀ v, cookie = some (some v) → v ≠ JVal.jnull → tokenExpired v now = false →
      validateSession cookie now =
        { cleared := false, userTokens := some v,
          userId := some (jsOr (propGet v ("user_id")) (JVal.jstr (("unknown").toList))) }) := by
  refine ⟨?_, ?_, ?_, ?_, ?_⟩
  · rintro rfl; rfl
  · rintro rfl; rfl
  · rintro v e rfl hexp he0 hle
    have hexpd : tokenExpired v now = true := by
      simp [tokenExpired, hexp, truthy, jsToNumber, he0, hle]
    cases v with
    | jnull => simp [propGet] at hexp
    | jbool b => simp [propGet] at hexp
    | jnum n => simp [propGet] at hexp
    | jstr s => simp [propGet] at hexp
    | jarr xs => simp [propGet] at hexp
    | jobj fs => simp [validateSession, hexpd]
  · rintro v s e rfl hexp hne hnum hle
    have hexpd : tokenExpired v now = true := by
      simp [tokenExpired, hexp, truthy, jsToNumber, hnum, hle,
        List.isEmpty_iff, hne]
    cases v with
    | jnull => simp [propGet] at hexp
    | jbool b => simp [propGet] at hexp
    | jnum n => simp [propGet] at hexp
    | jstr s2 => simp [propGet] at hexp
    | jarr xs => simp [propGet] at hexp
    | jobj fs => simp [validateSession, hexpd]
  · rintro v rfl hnn hexp
    cases v with
    | jnull => exact absurd rfl hnn
    | jbool b => simp [validateSession, hexp]
    | jnum n => simp [validateSession, hexp]
    | jstr s => simp [validateSession, hexp]
    | jarr xs => simp [validateSession, hexp]
    | jobj fs => simp [validateSession, hexp]

/-- Claim C9, witness: the no-cookie case of the amended theorem at a
concrete time. -/
theorem claim_C9_witness :
    validateSession none 7 = { cleared := false, userTokens := none, userId := none } :=
  (claim_C9 none 7).1 rfl

/-- On a POST request the CSRF middleware either calls next or rejects
with 403 and the fixed failure message. -/
theorem csrfPost_cases (hT bT cT : Option String) :
    csrfProtection ("POST") hT bT cT = none ∨
    csrfProtection ("POST") hT bT cT = some (403, ("CSRF token validation failed")) := by
  rw [csrfProtection, if_neg (by decide)]
  split
  · split
    · exact Or.inl rfl
    · exact Or.inr rfl
  · exact Or.inr rfl

/-- Claim C8, counterexample.  The /confirm-tasks chain holds no CSRF
middleware: an authenticated request carrying NO CSRF token (no header,
no body field, no cookie) is not rejected with 403 — it reaches the
remote Tasks API, performs one insertion and answers success — although
the CSRF middleware itself would reject exactly these token values with
403 on any endpoint that mounts it. -/
theorem claim_C8_counterexample :
    confirmTasksEndpoint (some (some okBundle)) 1700000000000 none none none
      (fun _ => true) (fun _ => none) (fun _ => true)
      (ConfirmBody.arr [TaskObj.obj (some (("write minutes").toList)) none]) =
      { response := Response.json true ("Successfully created 1 task(s).") , insertCalls := 1 }
    ∧ csrfProtection ("POST") none none none =
        some (403, ("CSRF token validation failed")) :=
  ⟨rfl, rfl⟩

/-- Claim C8, amended.  A POST request whose X-CSRF-Token header (or
_csrf body fallback) is missing or differs from the csrfToken cookie is
rejected with 403 before any external call on the endpoints whose chains
mount csrfProtection, such as /add-task — but NOT on /confirm-tasks,
whose chain omits the CSRF middleware (see the counterexample). -/
theorem claim_C8 (cookie : Option (Option JVal)) (now : Int)
    (hT bT cT : Option String) (task : List Char) (ins : Bool) :
    (∀ tokens uid, authenticateUser cookie now = AuthResult.ok tokens uid →
      csrfProtection ("POST") hT bT cT ≠ none →
      addTaskEndpoint cookie now hT bT cT task ins =
        { response := Response.status 403 ("CSRF token validation failed"),
          tasksApiCalled := false }) ∧
    (csrfProtection ("POST") hT bT cT = none ∨
      csrfProtection ("POST") hT bT cT = some (403, ("CSRF token validation failed"))) := by
  constructor
  · intro tokens uid hauth hcs
    rcases csrfPost_cases hT bT cT with h | h
    · exact absurd h hcs
    · simp [addTaskEndpoint, hauth, h]
  · exact csrfPost_cases hT bT cT

/-- Claim C8, witness: an authenticated /add-task request with no CSRF
material anywhere is answered 403 and the Tasks API is not called. -/
theorem claim_C8_witness :
    addTaskEndpoint (some (some okBundle)) 1700000000000 none none none (("x").toList) true =
      { response := Response.status 403 ("CSRF token validation failed"),
        tasksApiCalled := false } :=
  (claim_C8 (some (some okBundle)) 1700000000000 none none none (("x").toList) true).1
    okBundle (JVal.jstr (("unknown").toList)) rfl (by decide)

/-- Claim C10.  An authenticated /confirm-tasks request whose body fails
the confirmation validator is answered 400 with no remote insertion; the
validator fails whenever the tasks field is not an array of 1 to 100
elements, and whenever some element carries a task string whose trimmed
text holds one of the forbidden characters < > or the braces. -/
theorem claim_C10 (cookie : Option (Option JVal)) (now : Int)
    (hT bT cT : Option String) (iso : List Char → Bool)
    (pd : List Char → Option (List Char)) (api : Nat → Bool) (body : ConfirmBody) :
    (∀ tokens uid, authenticateUser cookie now = AuthResult.ok tokens uid →
      validateTaskConfirmationCheck iso body = false →
      confirmTasksEndpoint cookie now hT bT cT iso pd api body =
        { response := Response.status 400 ("Validation failed"), insertCalls := 0 }) ∧
    (body = ConfirmBody.notArray → validateTaskConfirmationCheck iso body = false) ∧
    (∀ ts, body = ConfirmBody.arr ts → (ts.length = 0 ∨ 100 < ts.length) →
      validateTaskConfirmationCheck iso body = false) ∧
    (∀ ts s dl, body = ConfirmBody.arr ts → TaskObj.obj (some s) dl ∈ ts →
      (∃ c ∈ jsTrimL s, c = '<' ∨ c = '>' ∨ c = braceL ∨ c = braceR) →
      validateTaskConfirmationCheck iso body = false) := by
  refine ⟨?_, ?_, ?_, ?_⟩
  · intro tokens uid hauth hchk
    cases body with
    | notArray => simp [confirmTasksEndpoint, hauth]
    | arr ts => simp [confirmTasksEndpoint, hauth, hchk]
  · rintro rfl; rfl
  · rintro ts rfl hlen
    have hb : (1 ≤ ts.length && ts.length ≤ 100) = false := by
      rcases hlen with h | h <;> simp <;> omega
    simp [validateTaskConfirmationCheck, hb]
  · rintro ts s dl rfl hmem ⟨c, hc, hbad⟩
    have hwl : (jsTrimL s).all
        (fun c => !(c == '<' || c == '>' || c == braceL || c == braceR)) = false := by
      rw [List.all_eq_false]
      refine ⟨c, hc, ?_⟩
      rcases hbad with h | h | h | h <;> simp [h]
    have hitem : confirmItemValid iso (TaskObj.obj (some s) dl) = false := by
      simp only [confirmItemValid, hwl, Bool.and_false, Bool.false_and]
    have hall : ts.all (confirmItemValid iso) = false := by
      rw [List.all_eq_false]
      exact ⟨_, hmem, by simp [hitem]⟩
    simp [validateTaskConfirmationCheck, hall]

/-- Claim C10, witness: a batch whose single element carries a task with
a forbidden angle bracket is answered 400 with zero insertions. -/
theorem claim_C10_witness :
    confirmTasksEndpoint (some (some okBundle)) 1700000000000 none none none
      (fun _ => true) (fun _ => none) (fun _ => true)
      (ConfirmBody.arr [TaskObj.obj (some (("a<b").toList)) none]) =
      { response := Response.status 400 ("Validation failed"), insertCalls := 0 } :=
  (claim_C10 (some (some okBundle)) 1700000000000 none none none
      (fun _ => true) (fun _ => none) (fun _ => true)
      (ConfirmBody.arr [TaskObj.obj (some (("a<b").toList)) none])).1
    okBundle (JVal.jstr (("unknown").toList)) rfl
    ((claim_C10 (some (some okBundle)) 1700000000000 none none none
        (fun _ => true) (fun _ => none) (fun _ => true)
        (ConfirmBody.arr [TaskObj.obj (some (("a<b").toList)) none])).2.2.2
      [TaskObj.obj (some (("a<b").toList)) none] (("a<b").toList) none rfl
      (List.mem_singleton.mpr rfl) ⟨'<', by decide, Or.inl rfl⟩)

/-- The insertion requests of the confirmation loop are exactly the
requests built from the attempted (non-empty) items, independent of the
insertion outcomes. -/
theorem confirmLoop_requests (pd : List Char → Option (List Char)) (api : Nat → Bool) :
    ∀ (ts : List TaskObj) (k : Nat),
      (confirmLoop pd api ts k).1 = (ts.filter attemptedItem).map (mkReq pd) := by
  intro ts
  induction ts with
  | nil => intro k; rfl
  | cons t ts ih =>
    intro k
    cases h : attemptedItem t <;>
      simp [confirmLoop, h, List.filter_cons, ih k, ih (k + 1)]

/-- The collected created-task texts are the original texts of the
attempted items whose insertion call succeeded, indexed in order. -/
theorem confirmLoop_created (pd : List Char → Option (List Char)) (api : Nat → Bool) :
    ∀ (ts : List TaskObj) (k : Nat),
      (confirmLoop pd api ts k).2 =
        (((ts.filter attemptedItem).enumFrom k).filter (fun p => api p.1)).map
          (fun p => (taskTextOf p.2).getD []) := by
  intro ts
  induction ts with
  | nil => intro k; rfl
  | cons t ts ih =>
    intro k
    cases h : attemptedItem t with
    | false => simp [confirmLoop, h, List.filter_cons, ih k]
    | true =>
      cases hapi : api k <;>
        simp [confirmLoop, h, List.filter_cons, List.enumFrom_cons, hapi, ih (k + 1)]

/-- Claim C4.  For an authenticated, validated /confirm-tasks batch: the
handler answers with the loop response and one remote insertion per
attempted item; every item is trimmed into its request title and skipped
when empty; the set of insertion calls does not depend on the per-item
outcomes (a failed insertion never aborts the rest); a due field is
attached only when a truthy deadline parses as a valid date; the created
texts are exactly the attempted items whose call succeeded; the response
is success with a message stating the created count when at least one
item was created, failure otherwise, and a failure response means every
attempted insertion call failed. -/
theorem claim_C4 (cookie : Option (Option JVal)) (now : Int)
    (hT bT cT : Option String) (iso : List Char → Bool)
    (pd : List Char → Option (List Char)) (api : Nat → Bool) (ts : List TaskObj)
    (tokens uid : JVal)
    (hauth : authenticateUser cookie now = AuthResult.ok tokens uid)
    (hval : validateTaskConfirmationCheck iso (ConfirmBody.arr ts) = true) :
    confirmTasksEndpoint cookie now hT bT cT iso pd api (ConfirmBody.arr ts) =
      { response := confirmResponse (confirmLoop pd api ts 0).2,
        insertCalls := (confirmLoop pd api ts 0).1.length } ∧
    (confirmLoop pd api ts 0).1 = (ts.filter attemptedItem).map (mkReq pd) ∧
    (confirmLoop pd api ts 0).1.length = (ts.filter attemptedItem).length ∧
    (∀ api2, (confirmLoop pd api2 ts 0).1 = (confirmLoop pd api ts 0).1) ∧
    (confirmLoop pd api ts 0).2 =
      (((ts.filter attemptedItem).enumFrom 0).filter (fun p => api p.1)).map
        (fun p => (taskTextOf p.2).getD []) ∧
    (∀ req ∈ (confirmLoop pd api ts 0).1, ∀ i, req.due = some i →
      ∃ t ∈ ts, ∃ d, deadlineOf t = some d ∧ d ≠ [] ∧ pd d = some i) ∧
    ((confirmLoop pd api ts 0).2 ≠ [] →
      confirmResponse (confirmLoop pd api ts 0).2 =
        Response.json true (("Successfully created ") ++
          toString (confirmLoop pd api ts 0).2.length ++ (" task(s).")) ) ∧
    ((confirmLoop pd api ts 0).2 = [] →
      confirmResponse (confirmLoop pd api ts 0).2 =
        Response.json false ("Failed to create any tasks. Please try again.")) ∧
    (confirmResponse (confirmLoop pd api ts 0).2 =
        Response.json false ("Failed to create any tasks. Please try again.") →
      ∀ i, i < (confirmLoop pd api ts 0).1.length → api i = false) := by
  refine ⟨?_, confirmLoop_requests pd api ts 0, ?_, ?_, confirmLoop_created pd api ts 0,
    ?_, ?_, ?_, ?_⟩
  · simp [confirmTasksEndpoint, hauth, hval]
  · rw [confirmLoop_requests pd api ts 0, List.length_map]
  · intro api2
    rw [confirmLoop_requests pd api ts 0, confirmLoop_requests pd api2 ts 0]
  · intro req hreq i hdue
    rw [confirmLoop_requests pd api ts 0] at hreq
    obtain ⟨t, hmem, rfl⟩ := List.mem_map.mp hreq
    have hmem2 : t ∈ ts := (List.mem_filter.mp hmem).1
    refine ⟨t, hmem2, ?_⟩
    rw [mkReq] at hdue
    simp only [mkDue] at hdue
    cases hd : deadlineOf t with
    | none =>
      rw [hd] at hdue
      exact absurd hdue (by simp)
    | some d =>
      rw [hd] at hdue
      change (if d.isEmpty = true then none else pd d) = some i at hdue
      by_cases hde : d.isEmpty = true
      · rw [if_pos hde] at hdue; exact absurd hdue (by simp)
      · rw [if_neg hde] at hdue
        exact ⟨d, rfl, by simpa [List.isEmpty_iff] using hde, hdue⟩
  · intro hne
    rw [confirmResponse, if_pos (by simpa [List.length_pos] using hne)]
  · intro he
    rw [confirmResponse, if_neg (by simp [he])]
  · intro hfail i hi
    have hempty : (confirmLoop pd api ts 0).2 = [] := by
      by_contra hne
      rw [confirmResponse, if_pos (by simpa [List.length_pos] using hne)] at hfail
      exact Response.noConfusion hfail (fun h _ => Bool.noConfusion h)
    rw [confirmLoop_created pd api ts 0] at hempty
    have hfilter : (((ts.filter attemptedItem).enumFrom 0).filter (fun p => api p.1)) = [] :=
      List.map_eq_nil_iff.mp hempty
    have hlen : i < (ts.filter attemptedItem).length := by
      have := confirmLoop_requests pd api ts 0
      rw [this, List.length_map] at hi
      exact hi
    have hall := List.filter_eq_nil_iff.mp hfilter
    have := List.forall_mem_enumFrom.mp hall i hlen
    simpa using this

/-- Claim C4, witness: a two-item batch (one with a parsing deadline, one
empty string that is skipped) against an always-failing insertion oracle
answers failure with zero creations, after exactly one insertion call. -/
theorem claim_C4_witness :
    confirmTasksEndpoint (some (some okBundle)) 1700000000000 none none none
      (fun _ => true) (fun _ => some (("2024-05-01T00:00:00.000Z").toList))
      (fun _ => false)
      (ConfirmBody.arr [TaskObj.obj (some (("write minutes").toList))
        (some (("2024-05-01").toList)), TaskObj.str []]) =
      { response := Response.json false ("Failed to create any tasks. Please try again."),
        insertCalls := 1 } := by
  rw [(claim_C4 (some (some okBundle)) 1700000000000 none none none
      (fun _ => true) (fun _ => some (("2024-05-01T00:00:00.000Z").toList))
      (fun _ => false)
      [TaskObj.obj (some (("write minutes").toList)) (some (("2024-05-01").toList)),
       TaskObj.str []]
      okBundle (JVal.jstr (("unknown").toList)) rfl rfl).1]
  rfl

/-- Claim C7.  A present upload whose first four bytes are not the PDF
signature is rejected with 400 whatever the declared MIME type says (the
middleware never reads it); and whenever one of the five active-content
markers named by the specification occurs in the scanned 10000-byte
prefix, the upload is rejected with a 400 response. -/
theorem claim_C7 :
    (∀ (buf : List Nat) (mime : String), pdfMagicOk buf = false →
      validateFileContent true buf mime = FileResult.reject 400 ("Invalid PDF file content")) ∧
    (∀ (buf : List Nat) (mime : String) (marker : String), marker ∈ claimMarkers →
      seqContains (buf.take 10000) (marker.toList.map Char.toNat) = true →
      ∃ m, validateFileContent true buf mime = FileResult.reject 400 m) := by
  constructor
  · intro buf mime h
    simp [validateFileContent, h]
  · intro buf mime marker hmem hsc
    by_cases hm : pdfMagicOk buf = true
    · refine ⟨("PDF contains potentially harmful content"), ?_⟩
      have hany : suspiciousByteSeqs.any (fun p => seqContains (buf.take 10000) p) = true := by
        fin_cases hmem <;>
          exact List.any_eq_true.mpr ⟨_, by decide, hsc⟩
      simp [validateFileContent, hm, hany]
    · refine ⟨("Invalid PDF file content"), ?_⟩
      have hmf : pdfMagicOk buf = false := by simpa using hm
      simp [validateFileContent, hmf]

/-- Claim C7, witness: a GIF header with a claimed application/pdf MIME
type is rejected as invalid PDF content. -/
theorem claim_C7_witness :
    pdfMagicOk (("GIF8").toList.map Char.toNat) = false ∧
    validateFileContent true (("GIF8").toList.map Char.toNat) ("application/pdf") =
      FileResult.reject 400 ("Invalid PDF file content") :=
  ⟨rfl, claim_C7.1 (("GIF8").toList.map Char.toNat) ("application/pdf") rfl⟩

/-- The ch atom cannot match an empty suffix or a suffix whose first
character differs (case-insensitively). -/
theorem hb_ch_of_headA (c : Char) (hc : ('a'.toLower == c.toLower) = false)
    (p : Option Char) (s : List Char) (hs : headA s) : headBlockedAt p s (RE.ch c) := by
  intro fuel cap
  rcases hs with rfl | ⟨xs, rfl⟩
  · cases fuel <;> rfl
  · cases fuel with
    | zero => rfl
    | succ f =>
      simp only [reMatch]
      rw [hc]
      rfl

/-- A sequence whose first component is blocked is blocked. -/
theorem hb_seq (a b : RE) (p : Option Char) (s : List Char)
    (h : headBlockedAt p s a) : headBlockedAt p s (RE.seq a b) := by
  intro fuel cap
  cases fuel with
  | zero => rfl
  | succ f => simp [reMatch, h f cap]

/-- Alphabetic input blocks every tag-pair pattern (first atom is the
angle bracket). -/
theorem hb_tagPair (name : String) (p : Option Char) (s : List Char) (hs : headA s) :
    headBlockedAt p s (tagPairPattern name) :=
  hb_seq _ _ p s (hb_ch_of_headA '<' (by decide) p s hs)

/-- Alphabetic input blocks the javascript: pattern (first atom j). -/
theorem hb_jsUri (p : Option Char) (s : List Char) (hs : headA s) :
    headBlockedAt p s patJsUri :=
  hb_seq _ _ p s (hb_ch_of_headA 'j' (by decide) p s hs)

/-- Alphabetic input blocks the event-handler pattern (first atom o). -/
theorem hb_onHandler (p : Option Char) (s : List Char) (hs : headA s) :
    headBlockedAt p s patOnHandler :=
  hb_seq _ _ p s (hb_seq _ _ p s (hb_ch_of_headA 'o' (by decide) p s hs))

/-- Alphabetic input blocks the any-tag pattern (first atom the angle
bracket). -/
theorem hb_htmlTag (p : Option Char) (s : List Char) (hs : headA s) :
    headBlockedAt p s patHtmlTag :=
  hb_seq _ _ p s (hb_ch_of_headA '<' (by decide) p s hs)

/-- A list of letters a is empty or starts with a. -/
theorem headA_of_allA (s : List Char) (h : allA s) : headA s := by
  cases s with
  | nil => exact Or.inl rfl
  | cons c cs => exact Or.inr ⟨cs, by rw [h c (List.mem_cons_self c cs)]⟩

/-- A pattern blocked at every position of an all-a input never tests
true on it. -/
theorem reTestFrom_false_of (P : RE) (hP : ∀ p s, allA s → headBlockedAt p s P) :
    ∀ (s : List Char) (prev : Option Char), allA s → reTestFrom P prev s = false := by
  intro s
  induction s with
  | nil =>
    intro prev h
    have hh : reMatchHead P prev [] = none := by
      rw [reMatchHead, hP prev [] h _ none]
      rfl
    rw [reTestFrom, hh]
  | cons c cs ih =>
    intro prev h
    have hc : allA cs := fun x hx => h x (List.mem_cons_of_mem _ hx)
    have hh : reMatchHead P prev (c :: cs) = none := by
      rw [reMatchHead, hP prev (c :: cs) h _ none]
      rfl
    rw [reTestFrom, hh]
    exact ih (some c) hc

/-- Entry-point form of the previous lemma. -/
theorem reTest_false_of (P : RE) (hP : ∀ p s, allA s → headBlockedAt p s P)
    (s : List Char) (h : allA s) : reTest P s = false :=
  reTestFrom_false_of P hP s none h

/-- An all-a list of any length satisfies allA. -/
theorem allA_replicate (n : Nat) : allA (List.replicate n 'a') :=
  fun _ hc => List.eq_of_mem_replicate hc

/-- Trimming the padded task removes exactly the trailing space. -/
theorem trim_padded : jsTrimL paddedTask = List.replicate 8192 'a' := by
  have h0 : jsWs 'a' = false := rfl
  have h1 : ∀ m : Nat, List.dropWhile jsWs (List.replicate (m + 1) 'a' ++ [' ']) =
      List.replicate (m + 1) 'a' ++ [' '] := by
    intro m
    simp [List.replicate_succ, List.dropWhile_cons, h0]
  have h2 : ∀ m : Nat, List.dropWhile jsWs (List.replicate (m + 1) 'a') =
      List.replicate (m + 1) 'a' := by
    intro m
    simp [List.replicate_succ, List.dropWhile_cons, h0]
  rw [paddedTask, jsTrimL,
    show List.replicate 8192 'a' = List.replicate (8191 + 1) 'a' from rfl, h1 8191,
    List.reverse_append, List.reverse_replicate]
  simp only [List.reverse_cons, List.reverse_nil, List.nil_append, List.singleton_append]
  rw [List.dropWhile_cons, if_pos (show jsWs ' ' = true from rfl), h2 8191,
    List.reverse_replicate]

/-- The 8193-character padded task passes the whole validateTask chain:
its TRIMMED length is exactly 8192 and the all-letter content matches no
script or markup pattern. -/
theorem validateTaskPasses_padded : validateTaskPasses paddedTask = true := by
  have hA := allA_replicate 8192
  have h1 : reTest (tagPairPattern ("script")) (List.replicate 8192 'a') = false :=
    reTest_false_of _ (fun p s hs => hb_tagPair ("script") p s (headA_of_allA s hs)) _ hA
  have h2 : reTest patJsUri (List.replicate 8192 'a') = false :=
    reTest_false_of _ (fun p s hs => hb_jsUri p s (headA_of_allA s hs)) _ hA
  have h3 : reTest patOnHandler (List.replicate 8192 'a') = false :=
    reTest_false_of _ (fun p s hs => hb_onHandler p s (headA_of_allA s hs)) _ hA
  have h4 : reTest (tagPairPattern ("iframe")) (List.replicate 8192 'a') = false :=
    reTest_false_of _ (fun p s hs => hb_tagPair ("iframe") p s (headA_of_allA s hs)) _ hA
  have h5 : reTest (tagPairPattern ("object")) (List.replicate 8192 'a') = false :=
    reTest_false_of _ (fun p s hs => hb_tagPair ("object") p s (headA_of_allA s hs)) _ hA
  have h6 : reTest (tagPairPattern ("embed")) (List.replicate 8192 'a') = false :=
    reTest_false_of _ (fun p s hs => hb_tagPair ("embed") p s (headA_of_allA s hs)) _ hA
  have h7 : reTest patHtmlTag (List.replicate 8192 'a') = false :=
    reTest_false_of _ (fun p s hs => hb_htmlTag p s (headA_of_allA s hs)) _ hA
  simp only [validateTaskPasses]
  rw [trim_padded, List.length_replicate]
  simp only [xssPatterns, List.all_cons, List.all_nil, h1, h2, h3, h4, h5, h6, h7]
  decide

/-- Claim C6, counterexample.  A task of raw length 8193 (8192 letters
and a trailing space) has length outside [1, 8192] and holds no markup,
yet the validator trims it to 8192 characters and accepts it: the
authenticated, CSRF-valid /add-task request is not answered 400 and the
remote Tasks API is called. -/
theorem claim_C6_counterexample :
    paddedTask.length = 8193 ∧
    validateTaskPasses paddedTask = true ∧
    addTaskEndpoint (some (some okBundle)) 1700000000000 (some ("tok")) none (some ("tok"))
        paddedTask true =
      { response := Response.json true ("Task created successfully"),
        tasksApiCalled := true } := by
  refine ⟨by rw [paddedTask, List.length_append, List.length_replicate]; rfl,
    validateTaskPasses_padded, ?_⟩
  have hauth : authenticateUser (some (some okBundle)) 1700000000000 =
      AuthResult.ok okBundle (JVal.jstr (("unknown").toList)) := rfl
  have hcs : csrfProtection ("POST") (some ("tok")) none (some ("tok")) = none := rfl
  simp only [addTaskEndpoint, hauth, hcs, validateTaskPasses_padded, if_true]

/-- Claim C6, amended.  For an authenticated, CSRF-valid /add-task
request, a task whose TRIMMED length is outside [1, 8192], or whose
value as the validator receives it matches one of the six script
patterns or contains an HTML tag, is answered 400 Validation failed and
the remote Tasks API is never called (the raw, untrimmed length bound of
the original claim fails: see the counterexample). -/
theorem claim_C6 (cookie : Option (Option JVal)) (now : Int)
    (hT bT cT : Option String) (task : List Char) (ins : Bool) :
    (∀ tokens uid, authenticateUser cookie now = AuthResult.ok tokens uid →
      csrfProtection ("POST") hT bT cT = none →
      validateTaskPasses task = false →
      addTaskEndpoint cookie now hT bT cT task ins =
        { response := Response.status 400 ("Validation failed"), tasksApiCalled := false }) ∧
    ((jsTrimL task).length = 0 ∨ 8192 < (jsTrimL task).length →
      validateTaskPasses task = false) ∧
    (∀ p ∈ xssPatterns, reTest p (jsTrimL task) = true → validateTaskPasses task = false) ∧
    (reTest patHtmlTag (jsTrimL task) = true → validateTaskPasses task = false) := by
  refine ⟨?_, ?_, ?_, ?_⟩
  · intro tokens uid hauth hcs hv
    simp [addTaskEndpoint, hauth, hcs, hv]
  · intro hlen
    have hb : (1 ≤ (jsTrimL task).length && (jsTrimL task).length ≤ 8192) = false := by
      rcases hlen with h | h <;> simp <;> omega
    simp [validateTaskPasses, hb]
  · intro p hp h
    have hall : xssPatterns.all (fun q => !reTest q (jsTrimL task)) = false := by
      rw [List.all_eq_false]
      exact ⟨p, hp, by simp [h]⟩
    simp [validateTaskPasses, hall]
  · intro h
    simp [validateTaskPasses, h]

/-- Claim C6, witness: an authenticated, CSRF-valid request whose task is
the empty string is answered 400 with no remote call. -/
theorem claim_C6_witness :
    addTaskEndpoint (some (some okBundle)) 1700000000000 (some ("tok")) none (some ("tok"))
        [] true =
      { response := Response.status 400 ("Validation failed"), tasksApiCalled := false } :=
  (claim_C6 (some (some okBundle)) 1700000000000 (some ("tok")) none (some ("tok")) [] true).1
    okBundle (JVal.jstr (("unknown").toList)) rfl rfl
    ((claim_C6 (some (some okBundle)) 1700000000000 (some ("tok")) none (some ("tok")) [] true).2.1
      (Or.inl rfl))

end GTasks
